import Mathlib

/-!
Verification of the Unit_Converter repository (src/app.py and
src/streamlit_app.py) against its natural-language specification.

Python floats are modelled exactly: a finite float is a fraction `QD`
(integer numerator, natural denominator, kept positive by every
operation the model performs), plus the special values nan, inf and
-inf.  `QD.val` interprets a fraction as a rational number; arithmetic
on `QD` is exact, so binary-floating-point rounding is abstracted away.
Python exceptions are modelled with `Except`.  The Gradio variant's
`convert` (src/app.py) wraps the whole computation in a try/except and
therefore totalises to a `String`; the Streamlit variant's `convert`
(src/streamlit_app.py) only guards the float() parse, so it is modelled
as `Except PyExc String`.
-/

namespace UnitConverter

/-- An exact fraction: numerator and (positive, in every value the model
constructs) denominator.  Fractions are not reduced; `val` gives the
rational value. -/
structure QD where
  n : ℤ
  d : ℕ
  deriving DecidableEq

/-- The rational value of a fraction. -/
def QD.val (x : QD) : ℚ := (x.n : ℚ) / (x.d : ℚ)

instance : Mul QD := ⟨fun x y => ⟨x.n * y.n, x.d * y.d⟩⟩

instance : Add QD := ⟨fun x y => ⟨x.n * (y.d : ℤ) + y.n * (x.d : ℤ), x.d * y.d⟩⟩

instance : Neg QD := ⟨fun x => ⟨-x.n, x.d⟩⟩

instance : Sub QD := ⟨fun x y => x + -y⟩

/-- Exact fraction division; the sign moves to the numerator so the
denominator stays positive (callers rule out a zero divisor first). -/
def QD.div (x y : QD) : QD :=
  if 0 ≤ y.n then ⟨x.n * (y.d : ℤ), x.d * y.n.natAbs⟩
  else ⟨-(x.n * (y.d : ℤ)), x.d * y.n.natAbs⟩

instance : Div QD := ⟨QD.div⟩

instance (k : ℕ) : OfNat QD k := ⟨⟨k, 1⟩⟩

/-- Decimal literals such as 1609.344 denote the exact decimal fraction
m / 10^e, matching the exact decimal the Python source writes. -/
instance : OfScientific QD :=
  ⟨fun m s e => if s then ⟨(m : ℤ), 10 ^ e⟩ else ⟨(m : ℤ) * 10 ^ e, 1⟩⟩

instance : HPow QD ℕ QD := ⟨fun x k => ⟨x.n ^ k, x.d ^ k⟩⟩

/-- Strict value comparison of two fractions with positive denominators,
by cross-multiplication. -/
def QD.blt (x y : QD) : Bool := decide (x.n * (y.d : ℤ) < y.n * (x.d : ℤ))

/-- Model of a Python float value: an exact fraction, or one of the
non-finite values nan, +inf, -inf. -/
inductive PyFloat where
  | finite : QD → PyFloat
  | nan : PyFloat
  | inf : PyFloat
  | ninf : PyFloat
  deriving DecidableEq

/-- Model of the Python exceptions that the two source files can raise. -/
inductive PyExc where
  | keyError : String → PyExc
  | valueError : String → PyExc
  | typeError : PyExc
  | zeroDivisionError : PyExc
  deriving DecidableEq

/-- A Python value flowing through streamlit_app.py's temperature path:
either a float or None (the implicit return of a fallen-through function). -/
inductive PyVal where
  | pfloat : PyFloat → PyVal
  | pnone : PyVal
  deriving DecidableEq

instance {ε α : Type} [DecidableEq ε] [DecidableEq α] : DecidableEq (Except ε α)
  | Except.ok a, Except.ok b =>
      match decEq a b with
      | isTrue h => isTrue (h ▸ rfl)
      | isFalse h => isFalse (fun hh => h (Except.ok.inj hh))
  | Except.ok _, Except.error _ => isFalse (fun hh => Except.noConfusion hh)
  | Except.error _, Except.ok _ => isFalse (fun hh => Except.noConfusion hh)
  | Except.error a, Except.error b =>
      match decEq a b with
      | isTrue h => isTrue (h ▸ rfl)
      | isFalse h => isFalse (fun hh => h (Except.error.inj hh))

/-- Python float negation. -/
def pyNeg : PyFloat → PyFloat
  | PyFloat.finite a => PyFloat.finite (-a)
  | PyFloat.nan => PyFloat.nan
  | PyFloat.inf => PyFloat.ninf
  | PyFloat.ninf => PyFloat.inf

/-- Python float addition (IEEE-style nan/inf propagation).  On finite
operands this model adds exactly where CPython rounds the sum to
binary64; the rounded operation is modelled separately by `fadd64` below
and is used wherever the distinction carries a claim. -/
def pyAdd : PyFloat → PyFloat → PyFloat
  | PyFloat.finite a, PyFloat.finite b => PyFloat.finite (a + b)
  | PyFloat.nan, _ => PyFloat.nan
  | _, PyFloat.nan => PyFloat.nan
  | PyFloat.inf, PyFloat.ninf => PyFloat.nan
  | PyFloat.ninf, PyFloat.inf => PyFloat.nan
  | PyFloat.inf, _ => PyFloat.inf
  | _, PyFloat.inf => PyFloat.inf
  | PyFloat.ninf, _ => PyFloat.ninf
  | _, PyFloat.ninf => PyFloat.ninf

/-- Python float subtraction (exact on finite operands where CPython
rounds; see `fsub64` for the rounded operation). -/
def pySub (x y : PyFloat) : PyFloat := pyAdd x (pyNeg y)

/-- Python float multiplication (exact on finite operands where CPython
rounds; see `fmul64`).  The sign tests on a finite operand read its
numerator, which determines the sign because the model keeps
denominators positive. -/
def pyMul : PyFloat → PyFloat → PyFloat
  | PyFloat.finite a, PyFloat.finite b => PyFloat.finite (a * b)
  | PyFloat.nan, _ => PyFloat.nan
  | _, PyFloat.nan => PyFloat.nan
  | PyFloat.inf, PyFloat.finite b =>
      if b.n = 0 then PyFloat.nan else if 0 < b.n then PyFloat.inf else PyFloat.ninf
  | PyFloat.finite a, PyFloat.inf =>
      if a.n = 0 then PyFloat.nan else if 0 < a.n then PyFloat.inf else PyFloat.ninf
  | PyFloat.ninf, PyFloat.finite b =>
      if b.n = 0 then PyFloat.nan else if 0 < b.n then PyFloat.ninf else PyFloat.inf
  | PyFloat.finite a, PyFloat.ninf =>
      if a.n = 0 then PyFloat.nan else if 0 < a.n then PyFloat.ninf else PyFloat.inf
  | PyFloat.inf, PyFloat.inf => PyFloat.inf
  | PyFloat.ninf, PyFloat.ninf => PyFloat.inf
  | PyFloat.inf, PyFloat.ninf => PyFloat.ninf
  | PyFloat.ninf, PyFloat.inf => PyFloat.ninf

/-- Python float division (exact on finite operands where CPython rounds;
see `fdiv64`).  Python raises ZeroDivisionError whenever the divisor is
zero, for any dividend (a finite fraction is zero exactly when its
numerator is). -/
def pyDiv (x y : PyFloat) : Except PyExc PyFloat :=
  match y with
  | PyFloat.finite b =>
      if b.n = 0 then Except.error PyExc.zeroDivisionError
      else
        match x with
        | PyFloat.finite a => Except.ok (PyFloat.finite (a / b))
        | PyFloat.nan => Except.ok PyFloat.nan
        | PyFloat.inf => Except.ok (if 0 < b.n then PyFloat.inf else PyFloat.ninf)
        | PyFloat.ninf => Except.ok (if 0 < b.n then PyFloat.ninf else PyFloat.inf)
  | PyFloat.nan => Except.ok PyFloat.nan
  | PyFloat.inf =>
      match x with
      | PyFloat.finite _ => Except.ok (PyFloat.finite 0)
      | _ => Except.ok PyFloat.nan
  | PyFloat.ninf =>
      match x with
      | PyFloat.finite _ => Except.ok (PyFloat.finite 0)
      | _ => Except.ok PyFloat.nan

/-- The LINEAR_UNITS table, identical in src/app.py lines 11-59 and
src/streamlit_app.py lines 10-58, as an ordered association list
(Python dicts preserve insertion order). -/
def LINEAR_UNITS : List (String × List (String × QD)) :=
  [ ("length",
      [ ("meter (m)", 1.0), ("kilometer (km)", 1000.0),
        ("centimeter (cm)", 0.01), ("millimeter (mm)", 0.001),
        ("mile (mi)", 1609.344), ("yard (yd)", 0.9144),
        ("foot (ft)", 0.3048), ("inch (in)", 0.0254) ]),
    ("mass",
      [ ("kilogram (kg)", 1.0), ("gram (g)", 0.001),
        ("milligram (mg)", 1e-6), ("metric ton (t)", 1000.0),
        ("pound (lb)", 0.45359237), ("ounce (oz)", 0.028349523125) ]),
    ("volume",
      [ ("liter (L)", 1.0), ("milliliter (mL)", 0.001),
        ("US gallon (gal)", 3.785411784), ("US quart (qt)", 0.946352946),
        ("US pint (pt)", 0.473176473), ("cup (US)", 0.2365882365),
        ("tablespoon (tbsp)", 0.01478676478), ("teaspoon (tsp)", 0.00492892159) ]),
    ("time",
      [ ("second (s)", 1.0), ("minute (min)", 60.0),
        ("hour (h)", 3600.0), ("day (d)", 86400.0) ]),
    ("speed",
      [ ("meter/second (m/s)", 1.0), ("kilometer/hour (km/h)", 1000.0 / 3600.0),
        ("mile/hour (mph)", 1609.344 / 3600.0), ("knot (kn)", 1852.0 / 3600.0) ]),
    ("data",
      [ ("byte (B)", 1.0), ("kilobyte (KB, 1024)", 1024.0),
        ("megabyte (MB, 1024)", 1024.0 ^ 2), ("gigabyte (GB, 1024)", 1024.0 ^ 3),
        ("terabyte (TB, 1024)", 1024.0 ^ 4) ]) ]

/-- TEMP_UNITS, src/app.py line 61 / src/streamlit_app.py line 60. -/
def TEMP_UNITS : List String := ["Celsius (°C)", "Fahrenheit (°F)", "Kelvin (K)"]

/-- ALL_CATEGORIES = list(LINEAR_UNITS.keys()) + ["temperature"]. -/
def ALL_CATEGORIES : List String := LINEAR_UNITS.map Prod.fst ++ ["temperature"]

/-- `listPrefixOf n h` is true when `n` is an initial segment of `h`. -/
def listPrefixOf : List Char → List Char → Bool
  | [], _ => true
  | _ :: _, [] => false
  | a :: as, b :: bs => a == b && listPrefixOf as bs

/-- `listContainsSub n h` is true when `n` occurs contiguously in `h`. -/
def listContainsSub (needle : List Char) : List Char → Bool
  | [] => needle.isEmpty
  | a :: t => listPrefixOf needle (a :: t) || listContainsSub needle t

/-- Model of Python's substring test `needle in haystack` on strings. -/
def containsSub (needle haystack : String) : Bool :=
  listContainsSub needle.toList haystack.toList

/-- Convenience: the factor stored for unit `u` of category `c`. -/
def factorOf (c u : String) : Option QD :=
  (List.lookup c LINEAR_UNITS).bind (fun tbl => List.lookup u tbl)

/-- src/app.py lines 68-74: `convert_linear`.  The category dict access
raises KeyError for an unknown category; a membership check then raises
ValueError when either unit is missing; otherwise the value is multiplied
by the source factor and divided by the target factor. -/
def convert_linear (category from_unit to_unit : String) (value : PyFloat) :
    Except PyExc PyFloat :=
  match List.lookup category LINEAR_UNITS with
  | none => Except.error (PyExc.keyError category)
  | some factors =>
      match List.lookup from_unit factors, List.lookup to_unit factors with
      | some ff, some ft => pyDiv (pyMul value (PyFloat.finite ff)) (PyFloat.finite ft)
      | _, _ => Except.error (PyExc.valueError "Unsupported unit for selected category.")

/-- src/streamlit_app.py lines 67-70: `convert_linear` with no membership
check; a missing unit key raises KeyError directly. -/
def convert_linearS (category from_unit to_unit : String) (value : PyFloat) :
    Except PyExc PyFloat :=
  match List.lookup category LINEAR_UNITS with
  | none => Except.error (PyExc.keyError category)
  | some factors =>
      match List.lookup from_unit factors with
      | none => Except.error (PyExc.keyError from_unit)
      | some ff =>
          match List.lookup to_unit factors with
          | none => Except.error (PyExc.keyError to_unit)
          | some ft => pyDiv (pyMul value (PyFloat.finite ff)) (PyFloat.finite ft)

/-- src/app.py lines 76-84: `temp_to_celsius`.  Branches are selected by
Python's substring test; `(v - 32.0) * 5.0 / 9.0` groups as
`((v - 32.0) * 5.0) / 9.0`. -/
def temp_to_celsius (v : PyFloat) (from_u : String) : Except PyExc PyFloat :=
  if containsSub "Celsius" from_u then Except.ok v
  else if containsSub "Fahrenheit" from_u then
    pyDiv (pyMul (pySub v (PyFloat.finite 32.0)) (PyFloat.finite 5.0)) (PyFloat.finite 9.0)
  else if containsSub "Kelvin" from_u then
    Except.ok (pySub v (PyFloat.finite 273.15))
  else Except.error (PyExc.valueError "Unknown temperature unit.")

/-- src/app.py lines 86-94: `celsius_to_target`; `v_c * 9.0 / 5.0 + 32.0`
groups as `((v_c * 9.0) / 5.0) + 32.0`. -/
def celsius_to_target (v_c : PyFloat) (to_u : String) : Except PyExc PyFloat :=
  if containsSub "Celsius" to_u then Except.ok v_c
  else if containsSub "Fahrenheit" to_u then
    (pyDiv (pyMul v_c (PyFloat.finite 9.0)) (PyFloat.finite 5.0)).map
      (fun t => pyAdd t (PyFloat.finite 32.0))
  else if containsSub "Kelvin" to_u then
    Except.ok (pyAdd v_c (PyFloat.finite 273.15))
  else Except.error (PyExc.valueError "Unknown temperature unit.")

/-- The two-stage temperature pass of src/app.py lines 104-106:
`celsius_to_target(temp_to_celsius(value, from_unit), to_unit)`, with
exception propagation. -/
def tempConvert (from_u to_u : String) (v : PyFloat) : Except PyExc PyFloat :=
  match temp_to_celsius v from_u with
  | Except.error e => Except.error e
  | Except.ok c => celsius_to_target c to_u

/-- The dispatch inside src/app.py `convert` lines 103-108: temperature
goes through the Celsius pivot, everything else through `convert_linear`. -/
def convertCore (category from_unit to_unit : String) (value : PyFloat) :
    Except PyExc PyFloat :=
  if category == "temperature" then tempConvert from_unit to_unit value
  else convert_linear category from_unit to_unit value

/-- src/streamlit_app.py lines 72-78: `temp_to_celsius` has no else
branch, so an unmatched unit label falls through and returns None. -/
def temp_to_celsiusS (v : PyFloat) (from_u : String) : Except PyExc PyVal :=
  if containsSub "Celsius" from_u then Except.ok (PyVal.pfloat v)
  else if containsSub "Fahrenheit" from_u then
    (pyDiv (pyMul (pySub v (PyFloat.finite 32.0)) (PyFloat.finite 5.0))
        (PyFloat.finite 9.0)).map PyVal.pfloat
  else if containsSub "Kelvin" from_u then
    Except.ok (PyVal.pfloat (pySub v (PyFloat.finite 273.15)))
  else Except.ok PyVal.pnone

/-- src/streamlit_app.py lines 80-86: `celsius_to_target`, again with no
else branch; arithmetic on a None pivot value raises TypeError. -/
def celsius_to_targetS (v_c : PyVal) (to_u : String) : Except PyExc PyVal :=
  if containsSub "Celsius" to_u then Except.ok v_c
  else if containsSub "Fahrenheit" to_u then
    match v_c with
    | PyVal.pnone => Except.error PyExc.typeError
    | PyVal.pfloat x =>
        (pyDiv (pyMul x (PyFloat.finite 9.0)) (PyFloat.finite 5.0)).map
          (fun t => PyVal.pfloat (pyAdd t (PyFloat.finite 32.0)))
  else if containsSub "Kelvin" to_u then
    match v_c with
    | PyVal.pnone => Except.error PyExc.typeError
    | PyVal.pfloat x => Except.ok (PyVal.pfloat (pyAdd x (PyFloat.finite 273.15)))
  else Except.ok PyVal.pnone

/-- The streamlit temperature pass, src/streamlit_app.py lines 94-96. -/
def tempConvertS (from_u to_u : String) (v : PyFloat) : Except PyExc PyVal :=
  match temp_to_celsiusS v from_u with
  | Except.error e => Except.error e
  | Except.ok c => celsius_to_targetS c to_u

/-- Numeric value of a list of decimal digit characters. -/
def natOfDigits (ds : List Char) : ℕ :=
  ds.foldl (fun n c => 10 * n + (c.toNat - 48)) 0

/-- Integer power of ten as an exact fraction. -/
def qdpow10 (e : ℤ) : QD :=
  if 0 ≤ e then ⟨(10 : ℤ) ^ e.toNat, 1⟩ else ⟨1, 10 ^ (-e).toNat⟩

/-- Parse the exponent suffix of a float literal: empty, or `e`/`E`,
optional sign, one or more digits with nothing after them. -/
def parseExpPart (m : QD) : List Char → Option QD
  | [] => some m
  | e :: r =>
      if e == 'e' || e == 'E' then
        let (eneg, r2) : Bool × List Char :=
          match r with
          | '-' :: t => (true, t)
          | '+' :: t => (false, t)
          | t => (false, t)
        let ds := r2.takeWhile Char.isDigit
        let r3 := r2.dropWhile Char.isDigit
        if ds.isEmpty || !r3.isEmpty then none
        else
          let ex : ℤ := if eneg then -(natOfDigits ds : ℤ) else (natOfDigits ds : ℤ)
          some (m * qdpow10 ex)
      else none

/-- Parse an unsigned decimal float literal: digits, optional fraction,
optional exponent; also accepts the forms `1.` and `.5`. -/
def parseDecimal (cs : List Char) : Option QD :=
  let ip := cs.takeWhile Char.isDigit
  let r1 := cs.dropWhile Char.isDigit
  match r1 with
  | '.' :: r2 =>
      let fp := r2.takeWhile Char.isDigit
      let r3 := r2.dropWhile Char.isDigit
      if ip.isEmpty && fp.isEmpty then none
      else
        parseExpPart (QD.mk (natOfDigits ip) 1 + QD.mk (natOfDigits fp) (10 ^ fp.length)) r3
  | _ => if ip.isEmpty then none else parseExpPart ⟨(natOfDigits ip : ℤ), 1⟩ r1

/-- Modelled from Python's built-in `float(str)` (not part of src/):
strips surrounding whitespace, takes an optional sign, then accepts the
case-insensitive special forms nan / inf / infinity or a decimal literal
with optional fraction and exponent.  (Underscore digit separators,
accepted by CPython, are not modelled; no claim involves them.)  Returns
none where Python raises ValueError. -/
def pyFloatOfString (s : String) : Option PyFloat :=
  let cs := ((s.toList.dropWhile Char.isWhitespace).reverse.dropWhile
      Char.isWhitespace).reverse
  let (neg, rest) : Bool × List Char :=
    match cs with
    | '-' :: t => (true, t)
    | '+' :: t => (false, t)
    | t => (false, t)
  let low := rest.map Char.toLower
  if low = ['n', 'a', 'n'] then some PyFloat.nan
  else if low = ['i', 'n', 'f'] ∨ low = ['i', 'n', 'f', 'i', 'n', 'i', 't', 'y'] then
    some (if neg then PyFloat.ninf else PyFloat.inf)
  else
    match parseDecimal rest with
    | none => none
    | some q => some (PyFloat.finite (if neg then -q else q))

/-- Round a fraction (with positive denominator) to the nearest integer,
ties to even — the rounding used by C's and Python's float formatting. -/
def roundHalfEven (q : QD) : ℤ :=
  let f := Int.fdiv q.n (q.d : ℤ)
  let r : QD := q - ⟨f, 1⟩
  if QD.blt r ⟨1, 2⟩ then f
  else if QD.blt ⟨1, 2⟩ r then f + 1
  else if f % 2 = 0 then f else f + 1

/-- Number of decimal digits of a natural number (1 for 0). -/
def digitLen (n : ℕ) : ℕ := (Nat.toDigits 10 n).length

/-- The decimal exponent of a positive fraction: the unique `e` with
`10 ^ e ≤ q < 10 ^ (e + 1)`. -/
def decExp (q : QD) : ℤ :=
  let a := q.n.natAbs
  let b := q.d
  let la := digitLen a - 1
  let lb := digitLen b - 1
  if b * 10 ^ la ≤ a * 10 ^ lb then (la : ℤ) - (lb : ℤ) else (la : ℤ) - (lb : ℤ) - 1

/-- Drop trailing '0' characters. -/
def stripZeros (s : List Char) : List Char :=
  (s.reverse.dropWhile (fun c => c == '0')).reverse

/-- The exponent suffix of %g formatting: at least two exponent digits,
always signed, e.g. `e+09`, `e-07`, `e+16`. -/
def expSuffix (e : ℤ) : String :=
  let ae := e.natAbs
  let ds := Nat.repr ae
  "e" ++ (if e < 0 then "-" else "+") ++ (if ae < 10 then "0" ++ ds else ds)

/-- Modelled from Python's `%.{p}g` / format spec `.{p}g` on floats (not
part of src/): round to `p` significant digits (ties to even), strip
trailing zeros, and use exponent notation when the decimal exponent is
below -4 or at least `p`.  Exact-fraction counterpart of the C `%g`
conversion Python delegates to. -/
def gfmt (p : ℕ) (q : QD) : String :=
  if q.n = 0 then "0"
  else
    let sign := if q.n < 0 then "-" else ""
    let aq : QD := ⟨(q.n.natAbs : ℤ), q.d⟩
    let e0 := decExp aq
    let n0 := roundHalfEven (aq * qdpow10 ((p : ℤ) - 1 - e0))
    let n : ℤ := if n0 = ((10 ^ p : ℕ) : ℤ) then ((10 ^ (p - 1) : ℕ) : ℤ) else n0
    let e : ℤ := if n0 = ((10 ^ p : ℕ) : ℤ) then e0 + 1 else e0
    let ds := Nat.repr n.toNat
    if e < -4 ∨ (p : ℤ) ≤ e then
      let tail := stripZeros (ds.toList.drop 1)
      sign ++ String.mk (ds.toList.take 1) ++
        (if tail.isEmpty then "" else "." ++ String.mk tail) ++ expSuffix e
    else if 0 ≤ e then
      let ipart := ds.toList.take (e.toNat + 1)
      let fpart := stripZeros (ds.toList.drop (e.toNat + 1))
      sign ++ String.mk ipart ++ (if fpart.isEmpty then "" else "." ++ String.mk fpart)
    else
      sign ++ "0." ++ String.mk (List.replicate (e.natAbs - 1) '0') ++
        String.mk (stripZeros ds.toList)

/-- src/app.py lines 111-114: `fmt(x)` is `f"{x:.6g}"`.  On non-finite
floats Python's format produces nan / inf / -inf. -/
def fmt (x : PyFloat) : String :=
  match x with
  | PyFloat.finite q => gfmt 6 q
  | PyFloat.nan => "nan"
  | PyFloat.inf => "inf"
  | PyFloat.ninf => "-inf"

/-- Modelled from Python's `str` on floats (not part of src/): the
shortest-repr algorithm, rendered here on the exact fraction model as
`<int>.0` for integral values below 10^16 and 17-significant-digit
general formatting otherwise — it agrees with CPython on every value
appearing in the claims. -/
def pyStr (x : PyFloat) : String :=
  match x with
  | PyFloat.nan => "nan"
  | PyFloat.inf => "inf"
  | PyFloat.ninf => "-inf"
  | PyFloat.finite q =>
      if q.d ≠ 0 ∧ q.n % (q.d : ℤ) = 0 ∧ (q.n / (q.d : ℤ)).natAbs < 10 ^ 16 then
        toString (q.n / (q.d : ℤ)) ++ ".0"
      else gfmt 17 q

/-- The textual form Python's f-string gives an exception object, as used
by src/app.py line 118 (`f"Error: {e}"`): `str(KeyError(k))` is the repr
of the missing key, `str(ValueError(msg))` is the message. -/
def pyExcStr (e : PyExc) : String :=
  match e with
  | PyExc.keyError k => "'" ++ k ++ "'"
  | PyExc.valueError m => m
  | PyExc.typeError => "unsupported operand type(s)"
  | PyExc.zeroDivisionError => "float division by zero"

/-- src/app.py lines 96-118: `convert`.  The float() parse failure has a
dedicated message; the whole conversion sits inside try/except, so every
raised exception is rendered as `Error: {e}` and the function always
returns a string. -/
def convert (category from_unit to_unit : String) (raw : String) : String :=
  match pyFloatOfString raw with
  | none => "Please enter a valid numeric value."
  | some value =>
      match convertCore category from_unit to_unit value with
      | Except.ok out =>
          fmt value ++ " " ++ from_unit ++ " = " ++ fmt out ++ " " ++ to_unit
      | Except.error e => "Error: " ++ pyExcStr e

/-- The dispatch inside src/streamlit_app.py `convert` lines 94-98. -/
def convertCoreS (category from_unit to_unit : String) (value : PyFloat) :
    Except PyExc PyVal :=
  if category == "temperature" then tempConvertS from_unit to_unit value
  else
    match convert_linearS category from_unit to_unit value with
    | Except.error e => Except.error e
    | Except.ok x => Except.ok (PyVal.pfloat x)

/-- src/streamlit_app.py lines 88-100: `convert`.  Only the float() parse
is guarded; conversion exceptions propagate to the caller, and formatting
a None result (`f"{out:.6g}"`) raises TypeError.  The input value is
echoed through `str(float(raw))`. -/
def convertS (category from_unit to_unit : String) (raw : String) :
    Except PyExc String :=
  match pyFloatOfString raw with
  | none => Except.ok "❌ Please enter a valid number."
  | some value =>
      match convertCoreS category from_unit to_unit value with
      | Except.error e => Except.error e
      | Except.ok PyVal.pnone => Except.error PyExc.typeError
      | Except.ok (PyVal.pfloat out) =>
          Except.ok (pyStr value ++ " " ++ from_unit ++ " = " ++ fmt out ++ " " ++ to_unit)

/-- src/app.py lines 123-126: `units_for_category`; the dict access is
unguarded, so an unknown category raises KeyError.  (The streamlit file
inlines the same logic at lines 112-115.) -/
def units_for_category (category : String) : Except PyExc (List String) :=
  if category == "temperature" then Except.ok TEMP_UNITS
  else
    match List.lookup category LINEAR_UNITS with
    | none => Except.error (PyExc.keyError category)
    | some tbl => Except.ok (tbl.map Prod.fst)

/-! ## Binary64 rounding, for the temperature drift analysis

The engine model above uses exact arithmetic; CPython executes the same
formulas in IEEE-754 binary64, rounding after every operation.  The
definitions below model that rounding faithfully for values in the normal
range (no overflow or subnormal handling — every value they are applied
to in this file is normal or zero), so that the drift of the temperature
double affine pass can be exhibited on the real arithmetic. -/

/-- Number of binary digits of a natural number (1 for 0). -/
def bitLen (n : ℕ) : ℕ := (Nat.toDigits 2 n).length

/-- Integer power of two as an exact fraction. -/
def qdpow2 (k : ℤ) : QD :=
  if 0 ≤ k then ⟨(2 : ℤ) ^ k.toNat, 1⟩ else ⟨1, 2 ^ (-k).toNat⟩

/-- The binary exponent of a positive fraction: the unique `e` with
`2 ^ e ≤ q < 2 ^ (e + 1)`. -/
def binExp (q : QD) : ℤ :=
  let a := q.n.natAbs
  let b := q.d
  let la := bitLen a - 1
  let lb := bitLen b - 1
  if b * 2 ^ la ≤ a * 2 ^ lb then (la : ℤ) - (lb : ℤ) else (la : ℤ) - (lb : ℤ) - 1

/-- Modelled from IEEE-754 binary64 rounding (round to nearest, ties to
even), as CPython applies it after every float operation: the value is
scaled to a 53-bit significand, rounded half-to-even, and rescaled. -/
def fl64 (q : QD) : QD :=
  if q.n = 0 then ⟨0, 1⟩
  else
    let aq : QD := ⟨(q.n.natAbs : ℤ), q.d⟩
    let e := binExp aq
    let m0 := roundHalfEven (aq * qdpow2 (52 - e))
    let m : ℤ := if m0 = 2 ^ 53 then (2 : ℤ) ^ 52 else m0
    let e2 : ℤ := if m0 = 2 ^ 53 then e + 1 else e
    let mag : QD := QD.mk m 1 * qdpow2 (e2 - 52)
    if q.n < 0 then -mag else mag

/-- Binary64 addition: exact sum, then rounding. -/
def fadd64 (x y : QD) : QD := fl64 (x + y)

/-- Binary64 subtraction: exact difference, then rounding. -/
def fsub64 (x y : QD) : QD := fl64 (x - y)

/-- Binary64 multiplication: exact product, then rounding. -/
def fmul64 (x y : QD) : QD := fl64 (x * y)

/-- Binary64 division: exact quotient, then rounding. -/
def fdiv64 (x y : QD) : QD := fl64 (x / y)

/-- src/app.py lines 76-84 (`temp_to_celsius`) under real binary64
arithmetic: every operation rounds, and each decimal constant is the
double nearest the literal. -/
def temp_to_celsius64 (v : QD) (from_u : String) : Except PyExc QD :=
  if containsSub "Celsius" from_u then Except.ok v
  else if containsSub "Fahrenheit" from_u then
    Except.ok (fdiv64 (fmul64 (fsub64 v (fl64 32.0)) (fl64 5.0)) (fl64 9.0))
  else if containsSub "Kelvin" from_u then Except.ok (fsub64 v (fl64 273.15))
  else Except.error (PyExc.valueError "Unknown temperature unit.")

/-- src/app.py lines 86-94 (`celsius_to_target`) under real binary64
arithmetic. -/
def celsius_to_target64 (v_c : QD) (to_u : String) : Except PyExc QD :=
  if containsSub "Celsius" to_u then Except.ok v_c
  else if containsSub "Fahrenheit" to_u then
    Except.ok (fadd64 (fdiv64 (fmul64 v_c (fl64 9.0)) (fl64 5.0)) (fl64 32.0))
  else if containsSub "Kelvin" to_u then Except.ok (fadd64 v_c (fl64 273.15))
  else Except.error (PyExc.valueError "Unknown temperature unit.")

/-- The temperature double affine pass of src/app.py lines 104-106 under
real binary64 arithmetic. -/
def tempConvert64 (from_u to_u : String) (v : QD) : Except PyExc QD :=
  match temp_to_celsius64 v from_u with
  | Except.error e => Except.error e
  | Except.ok c => celsius_to_target64 c to_u

/-! ## Value semantics of the fraction type -/

theorem q_div_div (a b c d : ℚ) : a / b / (c / d) = a * d / (b * c) := by
  rw [div_div_eq_mul_div, div_mul_eq_mul_div, div_div]

theorem QD.val_mul (x y : QD) : (x * y).val = x.val * y.val := by
  show ((x.n * y.n : ℤ) : ℚ) / ((x.d * y.d : ℕ) : ℚ) = (x.n : ℚ) / x.d * ((y.n : ℚ) / y.d)
  push_cast
  rw [div_mul_div_comm]

theorem QD.val_neg (x : QD) : (-x).val = -x.val := by
  show ((-x.n : ℤ) : ℚ) / (x.d : ℚ) = -((x.n : ℚ) / x.d)
  push_cast
  rw [neg_div]

theorem QD.val_add (x y : QD) (hx : x.d ≠ 0) (hy : y.d ≠ 0) :
    (x + y).val = x.val + y.val := by
  show ((x.n * y.d + y.n * x.d : ℤ) : ℚ) / ((x.d * y.d : ℕ) : ℚ)
      = (x.n : ℚ) / x.d + (y.n : ℚ) / y.d
  have hx' : (x.d : ℚ) ≠ 0 := Nat.cast_ne_zero.mpr hx
  have hy' : (y.d : ℚ) ≠ 0 := Nat.cast_ne_zero.mpr hy
  push_cast
  field_simp

theorem QD.val_sub (x y : QD) (hx : x.d ≠ 0) (hy : y.d ≠ 0) :
    (x - y).val = x.val - y.val := by
  show (x + -y).val = _
  rw [QD.val_add x (-y) hx hy, QD.val_neg]
  ring

theorem QD.val_div (x y : QD) : (x / y).val = x.val / y.val := by
  show (QD.div x y).val = _
  unfold QD.div
  rcases le_or_lt 0 y.n with h | h
  · rw [if_pos h]
    show ((x.n * y.d : ℤ) : ℚ) / ((x.d * y.n.natAbs : ℕ) : ℚ)
        = (x.n : ℚ) / x.d / ((y.n : ℚ) / y.d)
    push_cast [Int.cast_natAbs]
    rw [abs_of_nonneg (show (0 : ℚ) ≤ (y.n : ℚ) by exact_mod_cast h)]
    rw [q_div_div]
  · rw [if_neg (not_le.mpr h)]
    show ((-(x.n * y.d) : ℤ) : ℚ) / ((x.d * y.n.natAbs : ℕ) : ℚ)
        = (x.n : ℚ) / x.d / ((y.n : ℚ) / y.d)
    push_cast [Int.cast_natAbs]
    rw [abs_of_neg (show (y.n : ℚ) < 0 by exact_mod_cast h)]
    rw [mul_neg, neg_div_neg_eq, q_div_div]

theorem QD.mul_d (x y : QD) : (x * y).d = x.d * y.d := rfl

theorem QD.add_d (x y : QD) : (x + y).d = x.d * y.d := rfl

theorem QD.sub_d (x y : QD) : (x - y).d = x.d * y.d := rfl

theorem QD.div_d (x y : QD) : (x / y).d = x.d * y.n.natAbs := by
  show (QD.div x y).d = _
  unfold QD.div
  split <;> rfl

theorem QD.d_ne_mul {x y : QD} (hx : x.d ≠ 0) (hy : y.d ≠ 0) : (x * y).d ≠ 0 := by
  rw [QD.mul_d]; exact Nat.mul_ne_zero hx hy

theorem QD.d_ne_add {x y : QD} (hx : x.d ≠ 0) (hy : y.d ≠ 0) : (x + y).d ≠ 0 := by
  rw [QD.add_d]; exact Nat.mul_ne_zero hx hy

theorem QD.d_ne_sub {x y : QD} (hx : x.d ≠ 0) (hy : y.d ≠ 0) : (x - y).d ≠ 0 := by
  rw [QD.sub_d]; exact Nat.mul_ne_zero hx hy

theorem QD.d_ne_div {x y : QD} (hx : x.d ≠ 0) (hy : y.n ≠ 0) : (x / y).d ≠ 0 := by
  rw [QD.div_d]; exact Nat.mul_ne_zero hx (Int.natAbs_ne_zero.mpr hy)

/-! ## Helper lemmas about association-list lookup and the unit table -/

theorem mem_of_lookup_eq_some {α β : Type} [BEq α] [LawfulBEq α] :
    ∀ {l : List (α × β)} {k : α} {v : β}, List.lookup k l = some v → (k, v) ∈ l := by
  intro l
  induction l with
  | nil => intro k v h; simp [List.lookup] at h
  | cons p t ih =>
      intro k v h
      obtain ⟨a, b⟩ := p
      simp only [List.lookup] at h
      split at h
      · next hk =>
          injection h with hbv
          have hka : k = a := eq_of_beq hk
          subst hka; subst hbv
          exact List.mem_cons_self _ _
      · exact List.mem_cons_of_mem _ (ih h)

theorem lookup_eq_none_of_not_mem {α β : Type} [BEq α] [LawfulBEq α] :
    ∀ {l : List (α × β)} {k : α}, k ∉ l.map Prod.fst → List.lookup k l = none := by
  intro l
  induction l with
  | nil => intro k _; rfl
  | cons p t ih =>
      intro k hk
      obtain ⟨a, b⟩ := p
      simp only [List.map, List.mem_cons] at hk
      push_neg at hk
      have hne : (k == a) = false := by simp [hk.1]
      simp only [List.lookup, hne]
      exact ih hk.2

/-- Every scale factor stored in LINEAR_UNITS has a positive numerator
and a positive denominator (hence a positive value). -/
theorem table_pos : ∀ p ∈ LINEAR_UNITS, ∀ q ∈ p.2, 0 < q.2.n ∧ 0 < q.2.d := by decide

/-- A factor found by lookup has positive numerator and denominator. -/
theorem factor_pos {cat u : String} {tbl : List (String × QD)} {f : QD}
    (hc : List.lookup cat LINEAR_UNITS = some tbl)
    (hu : List.lookup u tbl = some f) : 0 < f.n ∧ 0 < f.d :=
  table_pos _ (mem_of_lookup_eq_some hc) _ (mem_of_lookup_eq_some hu)

/-- No category with an entry in LINEAR_UNITS is called "temperature". -/
theorem lookup_cat_ne_temp {c : String} {tbl : List (String × QD)}
    (hc : List.lookup c LINEAR_UNITS = some tbl) : c ≠ "temperature" := by
  intro hct
  subst hct
  rw [show List.lookup "temperature" LINEAR_UNITS = (none : Option (List (String × QD)))
    from rfl] at hc
  exact Option.noConfusion hc

/-- Unfold a successful `factorOf` into the two underlying lookups. -/
theorem factorOf_elim {cat u : String} {f : QD} (h : factorOf cat u = some f) :
    ∃ tbl, List.lookup cat LINEAR_UNITS = some tbl ∧ List.lookup u tbl = some f := by
  unfold factorOf at h
  rcases h1 : List.lookup cat LINEAR_UNITS with _ | tbl
  · rw [h1] at h; simp [Option.bind] at h
  · rw [h1] at h; simp [Option.bind] at h
    exact ⟨tbl, rfl, h⟩

/-- On a finite value and resolvable units, `convert_linear` performs the
exact change-of-basis arithmetic of src/app.py lines 73-74. -/
theorem convert_linear_eq {cat a b : String} {tbl : List (String × QD)} {fa fb : QD}
    (hc : List.lookup cat LINEAR_UNITS = some tbl)
    (ha : List.lookup a tbl = some fa) (hb : List.lookup b tbl = some fb) (v : QD) :
    convert_linear cat a b (PyFloat.finite v)
      = Except.ok (PyFloat.finite ((v * fa) / fb)) := by
  have hfb : fb.n ≠ 0 := ne_of_gt (factor_pos hc hb).1
  simp only [convert_linear, hc, ha, hb]
  simp [pyMul, pyDiv, hfb]

/-- The value of a factor found by lookup is a positive rational. -/
theorem factor_val_pos {cat u : String} {tbl : List (String × QD)} {f : QD}
    (hc : List.lookup cat LINEAR_UNITS = some tbl)
    (hu : List.lookup u tbl = some f) : 0 < f.val := by
  obtain ⟨hn, hd⟩ := factor_pos hc hu
  exact div_pos (by exact_mod_cast hn) (by exact_mod_cast hd)

/-! ## Values of the decimal constants in the temperature formulas -/

theorem qd32_val : (32.0 : QD).val = 32 := by
  show ((320 : ℤ) : ℚ) / ((10 ^ 1 : ℕ) : ℚ) = 32
  norm_num

theorem qd5_val : (5.0 : QD).val = 5 := by
  show ((50 : ℤ) : ℚ) / ((10 ^ 1 : ℕ) : ℚ) = 5
  norm_num

theorem qd9_val : (9.0 : QD).val = 9 := by
  show ((90 : ℤ) : ℚ) / ((10 ^ 1 : ℕ) : ℚ) = 9
  norm_num

theorem qd27315_val : (273.15 : QD).val = 273.15 := by
  show ((27315 : ℤ) : ℚ) / ((10 ^ 2 : ℕ) : ℚ) = 273.15
  norm_num

/-! ## The three temperature branches of each pivot stage, with values -/

theorem tc_C (v : QD) :
    ∃ c, temp_to_celsius (PyFloat.finite v) "Celsius (°C)" = Except.ok (PyFloat.finite c)
      ∧ c.d = v.d ∧ c.val = v.val :=
  ⟨v, rfl, rfl, rfl⟩

theorem tc_F (v : QD) (hv : v.d ≠ 0) :
    ∃ c, temp_to_celsius (PyFloat.finite v) "Fahrenheit (°F)" = Except.ok (PyFloat.finite c)
      ∧ c.d ≠ 0 ∧ c.val = (v.val - 32) * (5 / 9) := by
  refine ⟨((v - 32.0) * 5.0) / 9.0, rfl, ?_, ?_⟩
  · exact QD.d_ne_div (QD.d_ne_mul (QD.d_ne_sub hv (by decide)) (by decide)) (by decide)
  · rw [QD.val_div, QD.val_mul, QD.val_sub _ _ hv (by decide), qd32_val, qd5_val, qd9_val]
    ring

theorem tc_K (v : QD) (hv : v.d ≠ 0) :
    ∃ c, temp_to_celsius (PyFloat.finite v) "Kelvin (K)" = Except.ok (PyFloat.finite c)
      ∧ c.d ≠ 0 ∧ c.val = v.val - 273.15 := by
  refine ⟨v - 273.15, rfl, QD.d_ne_sub hv (by decide), ?_⟩
  rw [QD.val_sub _ _ hv (by decide), qd27315_val]

theorem ct_C (v : QD) :
    ∃ t, celsius_to_target (PyFloat.finite v) "Celsius (°C)" = Except.ok (PyFloat.finite t)
      ∧ t.d = v.d ∧ t.val = v.val :=
  ⟨v, rfl, rfl, rfl⟩

theorem ct_F (v : QD) (hv : v.d ≠ 0) :
    ∃ t, celsius_to_target (PyFloat.finite v) "Fahrenheit (°F)" = Except.ok (PyFloat.finite t)
      ∧ t.d ≠ 0 ∧ t.val = v.val * (9 / 5) + 32 := by
  refine ⟨(v * 9.0) / 5.0 + 32.0, rfl, ?_, ?_⟩
  · exact QD.d_ne_add (QD.d_ne_div (QD.d_ne_mul hv (by decide)) (by decide)) (by decide)
  · rw [QD.val_add _ _ (QD.d_ne_div (QD.d_ne_mul hv (by decide)) (by decide)) (by decide),
      QD.val_div, QD.val_mul, qd32_val, qd5_val, qd9_val]
    ring

theorem ct_K (v : QD) (hv : v.d ≠ 0) :
    ∃ t, celsius_to_target (PyFloat.finite v) "Kelvin (K)" = Except.ok (PyFloat.finite t)
      ∧ t.d ≠ 0 ∧ t.val = v.val + 273.15 := by
  refine ⟨v + 273.15, rfl, QD.d_ne_add hv (by decide), ?_⟩
  rw [QD.val_add _ _ hv (by decide), qd27315_val]

/-! ## Claims -/

/-- C3 (amended): in ideal exact arithmetic, converting any valid unit to
itself returns the original value — for the six linear categories the
result is `v * f / f = v`, and the temperature double affine pass
composes to the identity.  The original claim's stronger assertion, that
the temperature result is bit-identical with no drift because both pivot
stages reduce to identity when fromUnit == toUnit, is false of the
binary64 arithmetic the program executes: the stages do not reduce to the
identity and the double pass can drift (see the counterexample). -/
theorem C3_self_identity (cat u : String) (v : QD) (hv : v.d ≠ 0) :
    (∀ f, factorOf cat u = some f →
        ∃ w, convert_linear cat u u (PyFloat.finite v) = Except.ok (PyFloat.finite w)
          ∧ w.val = v.val)
  ∧ (u ∈ TEMP_UNITS →
        ∃ w, tempConvert u u (PyFloat.finite v) = Except.ok (PyFloat.finite w)
          ∧ w.val = v.val) := by
  constructor
  · intro f hf
    obtain ⟨tbl, hc, hu⟩ := factorOf_elim hf
    refine ⟨(v * f) / f, convert_linear_eq hc hu hu v, ?_⟩
    rw [QD.val_div, QD.val_mul]
    exact mul_div_cancel_right₀ v.val (ne_of_gt (factor_val_pos hc hu))
  · intro hu
    rw [show TEMP_UNITS = ["Celsius (°C)", "Fahrenheit (°F)", "Kelvin (K)"] from rfl] at hu
    fin_cases hu
    · obtain ⟨c, h1, _, h3⟩ := tc_C v
      obtain ⟨t, h4, _, h6⟩ := ct_C c
      refine ⟨t, ?_, by rw [h6, h3]⟩
      simp [tempConvert, h1, h4]
    · obtain ⟨c, h1, h2, h3⟩ := tc_F v hv
      obtain ⟨t, h4, _, h6⟩ := ct_F c h2
      refine ⟨t, ?_, ?_⟩
      · simp [tempConvert, h1, h4]
      · rw [h6, h3]; ring
    · obtain ⟨c, h1, h2, h3⟩ := tc_K v hv
      obtain ⟨t, h4, _, h6⟩ := ct_K c h2
      refine ⟨t, ?_, ?_⟩
      · simp [tempConvert, h1, h4]
      · rw [h6, h3]; ring

set_option maxRecDepth 8000 in
/-- C3 counterexample: under the real binary64 arithmetic the program
executes, converting the double nearest 1e-20 from Kelvin to Kelvin
returns exactly 0.0 — the temperature pass is a genuine double affine
pass, not an identity, and its result is not bit-identical to the
(nonzero) input, refuting the claim's no-drift assertion. -/
theorem C3_counterexample :
    tempConvert64 "Kelvin (K)" "Kelvin (K)" (fl64 (1e-20 : QD)) = Except.ok (QD.mk 0 1)
  ∧ (fl64 (1e-20 : QD)).val ≠ (QD.mk 0 1).val := by
  constructor
  · decide
  · intro h
    have hn : (fl64 (1e-20 : QD)).n ≠ 0 := by decide
    have hd : (fl64 (1e-20 : QD)).d ≠ 0 := by decide
    rw [show (QD.mk 0 1).val = 0 from by norm_num [QD.val]] at h
    exact div_ne_zero (Int.cast_ne_zero.mpr hn) (Nat.cast_ne_zero.mpr hd) h

/-- Witness for C3 at concrete inputs. -/
theorem C3_witness :
    (∃ w, convert_linear "length" "meter (m)" "meter (m)" (PyFloat.finite 7)
        = Except.ok (PyFloat.finite w) ∧ w.val = (7 : QD).val)
  ∧ (∃ w, tempConvert "Fahrenheit (°F)" "Fahrenheit (°F)" (PyFloat.finite 7)
        = Except.ok (PyFloat.finite w) ∧ w.val = (7 : QD).val) :=
  ⟨(C3_self_identity "length" "meter (m)" 7 (by decide)).1 1.0 rfl,
   (C3_self_identity "length" "Fahrenheit (°F)" 7 (by decide)).2 (by decide)⟩

/-- C5: for every linear category and valid unit pair, the numeric result
is exactly `value * table[category][fromUnit] / table[category][toUnit]`
with no rounding, and the table holds the published constants
(mile = 1609.344 m, pound = 0.45359237 kg, US gallon = 3.785411784 L,
and 1024-based binary multiples of the byte for data units). -/
theorem C5_linear_formula (cat a b : String) (fa fb : QD) (v : QD)
    (ha : factorOf cat a = some fa) (hb : factorOf cat b = some fb) :
    (∃ w, convert_linear cat a b (PyFloat.finite v) = Except.ok (PyFloat.finite w)
        ∧ w.val = v.val * fa.val / fb.val)
  ∧ factorOf "length" "mile (mi)" = some 1609.344
  ∧ (1609.344 : QD).val = 1609.344
  ∧ factorOf "mass" "pound (lb)" = some 0.45359237
  ∧ (0.45359237 : QD).val = 0.45359237
  ∧ factorOf "volume" "US gallon (gal)" = some 3.785411784
  ∧ (3.785411784 : QD).val = 3.785411784
  ∧ factorOf "data" "byte (B)" = some 1.0
  ∧ (1.0 : QD).val = 1
  ∧ factorOf "data" "kilobyte (KB, 1024)" = some 1024.0
  ∧ (1024.0 : QD).val = 1024
  ∧ factorOf "data" "megabyte (MB, 1024)" = some ((1024.0 : QD) ^ 2)
  ∧ ((1024.0 : QD) ^ 2).val = 1024 ^ 2
  ∧ factorOf "data" "gigabyte (GB, 1024)" = some ((1024.0 : QD) ^ 3)
  ∧ ((1024.0 : QD) ^ 3).val = 1024 ^ 3
  ∧ factorOf "data" "terabyte (TB, 1024)" = some ((1024.0 : QD) ^ 4)
  ∧ ((1024.0 : QD) ^ 4).val = 1024 ^ 4 := by
  refine ⟨?_, rfl, ?_, rfl, ?_, rfl, ?_, rfl, ?_, rfl, ?_, rfl, ?_, rfl, ?_, rfl, ?_⟩
  · obtain ⟨tbl, hc, hu⟩ := factorOf_elim ha
    obtain ⟨tbl2, hc2, hu2⟩ := factorOf_elim hb
    rw [hc] at hc2
    injection hc2 with htbl
    subst htbl
    exact ⟨(v * fa) / fb, convert_linear_eq hc hu hu2 v, by rw [QD.val_div, QD.val_mul]⟩
  · show ((1609344 : ℤ) : ℚ) / ((10 ^ 3 : ℕ) : ℚ) = 1609.344
    norm_num
  · show ((45359237 : ℤ) : ℚ) / ((10 ^ 8 : ℕ) : ℚ) = 0.45359237
    norm_num
  · show ((3785411784 : ℤ) : ℚ) / ((10 ^ 9 : ℕ) : ℚ) = 3.785411784
    norm_num
  · show ((10 : ℤ) : ℚ) / ((10 ^ 1 : ℕ) : ℚ) = 1
    norm_num
  · show ((10240 : ℤ) : ℚ) / ((10 ^ 1 : ℕ) : ℚ) = 1024
    norm_num
  · show ((10240 ^ 2 : ℤ) : ℚ) / (((10 ^ 1) ^ 2 : ℕ) : ℚ) = 1024 ^ 2
    norm_num
  · show ((10240 ^ 3 : ℤ) : ℚ) / (((10 ^ 1) ^ 3 : ℕ) : ℚ) = 1024 ^ 3
    norm_num
  · show ((10240 ^ 4 : ℤ) : ℚ) / (((10 ^ 1) ^ 4 : ℕ) : ℚ) = 1024 ^ 4
    norm_num

/-- Witness for C5 at concrete inputs. -/
theorem C5_witness :
    (∃ w, convert_linear "length" "mile (mi)" "meter (m)" (PyFloat.finite 2)
        = Except.ok (PyFloat.finite w)
        ∧ w.val = (2 : QD).val * (1609.344 : QD).val / (1.0 : QD).val)
  ∧ factorOf "length" "mile (mi)" = some 1609.344
  ∧ (1609.344 : QD).val = 1609.344
  ∧ factorOf "mass" "pound (lb)" = some 0.45359237
  ∧ (0.45359237 : QD).val = 0.45359237
  ∧ factorOf "volume" "US gallon (gal)" = some 3.785411784
  ∧ (3.785411784 : QD).val = 3.785411784
  ∧ factorOf "data" "byte (B)" = some 1.0
  ∧ (1.0 : QD).val = 1
  ∧ factorOf "data" "kilobyte (KB, 1024)" = some 1024.0
  ∧ (1024.0 : QD).val = 1024
  ∧ factorOf "data" "megabyte (MB, 1024)" = some ((1024.0 : QD) ^ 2)
  ∧ ((1024.0 : QD) ^ 2).val = 1024 ^ 2
  ∧ factorOf "data" "gigabyte (GB, 1024)" = some ((1024.0 : QD) ^ 3)
  ∧ ((1024.0 : QD) ^ 3).val = 1024 ^ 3
  ∧ factorOf "data" "terabyte (TB, 1024)" = some ((1024.0 : QD) ^ 4)
  ∧ ((1024.0 : QD) ^ 4).val = 1024 ^ 4 :=
  C5_linear_formula "length" "mile (mi)" "meter (m)" 1609.344 1.0 2 rfl rfl

/-- C6: on the three recognized labels the two pivot stages compute the
published affine formulas (Celsius identity, Fahrenheit (v-32)*5/9 in and
v*9/5+32 out, Kelvin an offset of 273.15), and the temperature conversion
is exactly their composition through the Celsius pivot. -/
theorem C6_temperature_formulas (v : QD) (hv : v.d ≠ 0) :
    (∃ c, temp_to_celsius (PyFloat.finite v) "Celsius (°C)" = Except.ok (PyFloat.finite c)
        ∧ c.val = v.val)
  ∧ (∃ c, temp_to_celsius (PyFloat.finite v) "Fahrenheit (°F)" = Except.ok (PyFloat.finite c)
        ∧ c.val = (v.val - 32) * (5 / 9))
  ∧ (∃ c, temp_to_celsius (PyFloat.finite v) "Kelvin (K)" = Except.ok (PyFloat.finite c)
        ∧ c.val = v.val - 273.15)
  ∧ (∃ t, celsius_to_target (PyFloat.finite v) "Celsius (°C)" = Except.ok (PyFloat.finite t)
        ∧ t.val = v.val)
  ∧ (∃ t, celsius_to_target (PyFloat.finite v) "Fahrenheit (°F)" = Except.ok (PyFloat.finite t)
        ∧ t.val = v.val * (9 / 5) + 32)
  ∧ (∃ t, celsius_to_target (PyFloat.finite v) "Kelvin (K)" = Except.ok (PyFloat.finite t)
        ∧ t.val = v.val + 273.15)
  ∧ (∀ from_u to_u c, temp_to_celsius (PyFloat.finite v) from_u = Except.ok c →
        tempConvert from_u to_u (PyFloat.finite v) = celsius_to_target c to_u)
  ∧ (∀ from_u to_u, convertCore "temperature" from_u to_u (PyFloat.finite v)
        = tempConvert from_u to_u (PyFloat.finite v)) := by
  refine ⟨?_, ?_, ?_, ?_, ?_, ?_, ?_, fun _ _ => rfl⟩
  · obtain ⟨c, h1, _, h3⟩ := tc_C v; exact ⟨c, h1, h3⟩
  · obtain ⟨c, h1, _, h3⟩ := tc_F v hv; exact ⟨c, h1, h3⟩
  · obtain ⟨c, h1, _, h3⟩ := tc_K v hv; exact ⟨c, h1, h3⟩
  · obtain ⟨t, h1, _, h3⟩ := ct_C v; exact ⟨t, h1, h3⟩
  · obtain ⟨t, h1, _, h3⟩ := ct_F v hv; exact ⟨t, h1, h3⟩
  · obtain ⟨t, h1, _, h3⟩ := ct_K v hv; exact ⟨t, h1, h3⟩
  · intro from_u to_u c h
    simp [tempConvert, h]

/-- Witness for C6 at a concrete input. -/
theorem C6_witness :
    ∃ c, temp_to_celsius (PyFloat.finite 98.6) "Fahrenheit (°F)"
        = Except.ok (PyFloat.finite c)
      ∧ c.val = ((98.6 : QD).val - 32) * (5 / 9) :=
  (C6_temperature_formulas 98.6 (by decide)).2.1

/-- C9: for every linear category, valid unit pair (a, b) and finite
nonzero value, converting a→b and then b→a returns the original value
within 1e-9 relative tolerance (exactly, in this exact-arithmetic
model). -/
theorem C9_roundtrip (cat a b : String) (fa fb : QD) (v : QD)
    (ha : factorOf cat a = some fa) (hb : factorOf cat b = some fb)
    (hv0 : v.val ≠ 0) :
    ∃ w w2, convert_linear cat a b (PyFloat.finite v) = Except.ok (PyFloat.finite w)
      ∧ convert_linear cat b a (PyFloat.finite w) = Except.ok (PyFloat.finite w2)
      ∧ |w2.val - v.val| ≤ |v.val| / 1000000000 := by
  obtain ⟨tbl, hc, hu⟩ := factorOf_elim ha
  obtain ⟨tbl2, hc2, hu2⟩ := factorOf_elim hb
  rw [hc] at hc2
  injection hc2 with htbl
  subst htbl
  have hfa : fa.val ≠ 0 := ne_of_gt (factor_val_pos hc hu)
  have hfb : fb.val ≠ 0 := ne_of_gt (factor_val_pos hc hu2)
  refine ⟨(v * fa) / fb, (((v * fa) / fb) * fb) / fa,
    convert_linear_eq hc hu hu2 v, convert_linear_eq hc hu2 hu _, ?_⟩
  have hval : ((((v * fa) / fb) * fb) / fa).val = v.val := by
    rw [QD.val_div, QD.val_mul, QD.val_div, QD.val_mul]
    field_simp
  rw [hval, sub_self, abs_zero]
  positivity

/-- Witness for C9 at concrete inputs. -/
theorem C9_witness :
    ∃ w w2, convert_linear "length" "meter (m)" "kilometer (km)" (PyFloat.finite 1)
        = Except.ok (PyFloat.finite w)
      ∧ convert_linear "length" "kilometer (km)" "meter (m)" (PyFloat.finite w)
        = Except.ok (PyFloat.finite w2)
      ∧ |w2.val - (1 : QD).val| ≤ |(1 : QD).val| / 1000000000 :=
  C9_roundtrip "length" "meter (m)" "kilometer (km)" 1.0 1000.0 1 rfl rfl
    (by show ((1 : ℤ) : ℚ) / ((1 : ℕ) : ℚ) ≠ 0; norm_num)

/-- C1 (amended): in the Gradio variant (src/app.py) `convert` is total —
an unknown category is reported as the stringified KeyError
`Error: '<category>'` and an unknown linear unit as
`Error: Unsupported unit for selected category.`, an unknown temperature
label as `Error: Unknown temperature unit.` — but in the Streamlit
variant the same inputs make `convert` raise an uncaught KeyError. -/
theorem C1_amended :
    (∀ category from_unit to_unit raw v, pyFloatOfString raw = some v →
        category ≠ "temperature" → List.lookup category LINEAR_UNITS = none →
        convert category from_unit to_unit raw = "Error: " ++ ("'" ++ category ++ "'")
          ∧ convertS category from_unit to_unit raw
              = Except.error (PyExc.keyError category))
  ∧ (∀ category from_unit to_unit raw v tbl, pyFloatOfString raw = some v →
        List.lookup category LINEAR_UNITS = some tbl →
        (List.lookup from_unit tbl = none ∨ List.lookup to_unit tbl = none) →
        convert category from_unit to_unit raw
          = "Error: Unsupported unit for selected category.")
  ∧ (∀ from_unit to_unit raw v, pyFloatOfString raw = some v →
        containsSub "Celsius" from_unit = false →
        containsSub "Fahrenheit" from_unit = false →
        containsSub "Kelvin" from_unit = false →
        convert "temperature" from_unit to_unit raw
          = "Error: Unknown temperature unit.") := by
  refine ⟨?_, ?_, ?_⟩
  · intro category from_unit to_unit raw v hp hnt hnone
    have hb : (category == "temperature") = false := beq_eq_false_iff_ne.mpr hnt
    constructor
    · simp [convert, hp, convertCore, hb, convert_linear, hnone, pyExcStr]
    · simp [convertS, hp, convertCoreS, hb, convert_linearS, hnone]
  · intro category from_unit to_unit raw v tbl hp hc hor
    have hb : (category == "temperature") = false :=
      beq_eq_false_iff_ne.mpr (lookup_cat_ne_temp hc)
    rcases hor with h | h
    · simp [convert, hp, convertCore, hb, convert_linear, hc, h, pyExcStr]
    · rcases hfa : List.lookup from_unit tbl with _ | ff
      · simp [convert, hp, convertCore, hb, convert_linear, hc, hfa, pyExcStr]
      · simp [convert, hp, convertCore, hb, convert_linear, hc, hfa, h, pyExcStr]
  · intro from_unit to_unit raw v hp h1 h2 h3
    simp [convert, hp, convertCore, tempConvert, temp_to_celsius, h1, h2, h3, pyExcStr]

/-- C1 counterexample: an unrecognized category makes the Streamlit
variant's `convert` raise an uncaught KeyError instead of returning a
value, refuting the claim that no input makes `convert` raise. -/
theorem C1_counterexample :
    convertS "weight" "kg" "lb" "1" = Except.error (PyExc.keyError "weight") := by decide

/-- Witness for C1 at concrete inputs. -/
theorem C1_witness :
    convert "weight" "kg" "lb" "1" = "Error: " ++ ("'" ++ "weight" ++ "'")
      ∧ convertS "weight" "kg" "lb" "1" = Except.error (PyExc.keyError "weight") :=
  C1_amended.1 "weight" "kg" "lb" "1" (PyFloat.finite ⟨1, 1⟩) rfl (by decide) rfl

/-- C2 (amended): temperature units are recognized by substring matching,
so the unknown-unit error is produced exactly when the label contains none
of "Celsius", "Fahrenheit", "Kelvin"; a label that merely contains one,
such as "xCelsius", is silently accepted and the input can be returned
unconverted as a success result, and the Streamlit variant raises
TypeError instead of returning an error. -/
theorem C2_amended :
    (∀ to_unit raw v, pyFloatOfString raw = some v →
        containsSub "Celsius" to_unit = false →
        containsSub "Fahrenheit" to_unit = false →
        containsSub "Kelvin" to_unit = false →
        convert "temperature" "Celsius (°C)" to_unit raw
          = "Error: Unknown temperature unit.")
  ∧ (∀ v : PyFloat, tempConvert "xCelsius" "Celsius (°C)" v = Except.ok v)
  ∧ convertS "temperature" "Rankine (°R)" "Fahrenheit (°F)" "1"
      = Except.error PyExc.typeError := by
  refine ⟨?_, fun v => rfl, by decide⟩
  intro to_unit raw v hp h1 h2 h3
  simp [convert, hp, convertCore, tempConvert, temp_to_celsius, celsius_to_target,
    h1, h2, h3, pyExcStr, show containsSub "Celsius" "Celsius (°C)" = true from rfl]

/-- C2 counterexample: "xCelsius" is not one of the three recognized
temperature units, yet `convert` silently returns the input value
unconverted as a success string instead of an UnknownUnit error. -/
theorem C2_counterexample :
    convert "temperature" "xCelsius" "Celsius (°C)" "5"
      = "5 xCelsius = 5 Celsius (°C)" := by decide

/-- Witness for C2 at concrete inputs. -/
theorem C2_witness :
    convert "temperature" "Celsius (°C)" "Rankine (°R)" "1"
      = "Error: Unknown temperature unit." :=
  C2_amended.1 "Rankine (°R)" "1" (PyFloat.finite ⟨1, 1⟩) rfl (by decide) (by decide)
    (by decide)

/-- C4 (amended): `convert` reports the invalid-value message exactly when
Python's float() fails to parse the raw string; the strings "nan" and
"inf" parse successfully to non-finite floats and are NOT rejected — they
flow into the conversion arithmetic. -/
theorem C4_amended (category from_unit to_unit raw : String)
    (h : pyFloatOfString raw = none) :
    convert category from_unit to_unit raw = "Please enter a valid numeric value."
  ∧ convertS category from_unit to_unit raw = Except.ok "❌ Please enter a valid number."
  ∧ pyFloatOfString "nan" = some PyFloat.nan
  ∧ pyFloatOfString "inf" = some PyFloat.inf
  ∧ pyFloatOfString "-inf" = some PyFloat.ninf
  ∧ pyFloatOfString "not-a-number" = none := by
  exact ⟨by simp [convert, h], by simp [convertS, h], by decide, by decide, by decide,
    by decide⟩

/-- C4 counterexample: the input "nan" is not rejected with the
invalid-value error; the conversion runs on it and reports a nan
result as a success string. -/
theorem C4_counterexample :
    convert "length" "meter (m)" "meter (m)" "nan" = "nan meter (m) = nan meter (m)"
  ∧ convert "length" "meter (m)" "meter (m)" "nan"
      ≠ "Please enter a valid numeric value." := by
  exact ⟨by decide, by decide⟩

/-- Witness for C4 at a concrete unparseable input. -/
theorem C4_witness :
    convert "length" "meter (m)" "meter (m)" "not-a-number"
        = "Please enter a valid numeric value."
  ∧ convertS "length" "meter (m)" "meter (m)" "not-a-number"
        = Except.ok "❌ Please enter a valid number."
  ∧ pyFloatOfString "nan" = some PyFloat.nan
  ∧ pyFloatOfString "inf" = some PyFloat.inf
  ∧ pyFloatOfString "-inf" = some PyFloat.ninf
  ∧ pyFloatOfString "not-a-number" = none :=
  C4_amended "length" "meter (m)" "meter (m)" "not-a-number" (by decide)

/-- C7 counterexample: on the spec's data example neither variant returns
the claimed string "1073741824 byte (B) = 1 gigabyte (GB, 1024)". -/
theorem C7_counterexample :
    convert "data" "byte (B)" "gigabyte (GB, 1024)" "1073741824"
        ≠ "1073741824 byte (B) = 1 gigabyte (GB, 1024)"
  ∧ convertS "data" "byte (B)" "gigabyte (GB, 1024)" "1073741824"
        ≠ Except.ok "1073741824 byte (B) = 1 gigabyte (GB, 1024)" := by
  exact ⟨by decide, by decide⟩

/-- C7 (amended): the echoed input value is re-rendered from the parsed
float, not copied from the caller's string: src/app.py formats it with the
same 6-significant-digit formatter (giving exponent notation here), and
src/streamlit_app.py echoes str(float(raw)) (giving a trailing ".0"). -/
theorem C7_amended :
    convert "data" "byte (B)" "gigabyte (GB, 1024)" "1073741824"
      = "1.07374e+09 byte (B) = 1 gigabyte (GB, 1024)"
  ∧ fmt (PyFloat.finite ⟨1073741824, 1⟩) = "1.07374e+09"
  ∧ convertS "data" "byte (B)" "gigabyte (GB, 1024)" "1073741824"
      = Except.ok "1073741824.0 byte (B) = 1 gigabyte (GB, 1024)"
  ∧ pyStr (PyFloat.finite ⟨1073741824, 1⟩) = "1073741824.0" := by
  exact ⟨by decide, by decide, by decide, by decide⟩

/-- C8: successful conversions render both numbers with %.6g — six
significant digits, trailing zeros stripped, exponent notation for very
large or small magnitudes — and the mass example renders the converted
value as "0.907185 kilogram (kg)". -/
theorem C8_formatting :
    convert "mass" "pound (lb)" "kilogram (kg)" "2"
      = "2 pound (lb) = 0.907185 kilogram (kg)"
  ∧ fmt (PyFloat.finite ⟨1000000, 1⟩) = "1e+06"
  ∧ fmt (PyFloat.finite ⟨1, 10000000⟩) = "1e-07"
  ∧ fmt (PyFloat.finite ⟨25, 100⟩) = "0.25"
  ∧ (∀ category from_unit to_unit raw v out,
        pyFloatOfString raw = some v →
        convertCore category from_unit to_unit v = Except.ok out →
        convert category from_unit to_unit raw
          = fmt v ++ " " ++ from_unit ++ " = " ++ fmt out ++ " " ++ to_unit) := by
  refine ⟨by decide, by decide, by decide, by decide, ?_⟩
  intro category from_unit to_unit raw v out h1 h2
  simp [convert, h1, h2]

/-- Witness for C8's general formatting conjunct at a concrete input. -/
theorem C8_witness :
    convert "time" "hour (h)" "minute (min)" "1"
      = fmt (PyFloat.finite (QD.mk 1 1)) ++ " " ++ "hour (h)" ++ " = "
        ++ fmt (PyFloat.finite ((QD.mk 1 1 * 3600.0) / 60.0)) ++ " " ++ "minute (min)" :=
  C8_formatting.2.2.2.2 "time" "hour (h)" "minute (min)" "1" (PyFloat.finite (QD.mk 1 1))
    (PyFloat.finite ((QD.mk 1 1 * 3600.0) / 60.0)) rfl rfl

/-- C10: `units_for_category` returns a non-empty ordered unit list for
every category of the fixed set — the three temperature labels for
"temperature", the table's keys in definition order otherwise — but for
any other category string the unguarded dict access raises KeyError
rather than returning an error value. -/
theorem C10_units_query :
    (∀ c, c ∈ ALL_CATEGORIES → ∃ l, units_for_category c = Except.ok l ∧ l ≠ [])
  ∧ units_for_category "temperature" = Except.ok TEMP_UNITS
  ∧ (∀ c tbl, List.lookup c LINEAR_UNITS = some tbl →
        units_for_category c = Except.ok (tbl.map Prod.fst))
  ∧ (∀ c, c ∉ ALL_CATEGORIES →
        units_for_category c = Except.error (PyExc.keyError c)) := by
  refine ⟨?_, rfl, ?_, ?_⟩
  · intro c hc
    rw [show ALL_CATEGORIES
        = ["length", "mass", "volume", "time", "speed", "data", "temperature"] from rfl] at hc
    fin_cases hc <;> exact ⟨_, rfl, by decide⟩
  · intro c tbl hc
    have hb : (c == "temperature") = false :=
      beq_eq_false_iff_ne.mpr (lookup_cat_ne_temp hc)
    simp [units_for_category, hb, hc]
  · intro c hc
    rw [show ALL_CATEGORIES = LINEAR_UNITS.map Prod.fst ++ ["temperature"] from rfl] at hc
    simp only [List.mem_append, List.mem_singleton] at hc
    push_neg at hc
    have hb : (c == "temperature") = false := beq_eq_false_iff_ne.mpr hc.2
    simp [units_for_category, hb, lookup_eq_none_of_not_mem hc.1]

/-- Witness for C10 at a concrete unknown category. -/
theorem C10_witness :
    units_for_category "weight" = Except.error (PyExc.keyError "weight") :=
  C10_units_query.2.2.2 "weight" (by decide)

end UnitConverter
